import Mathlib

/-!
Verification of the database-lifecycle and entity-base subsystem of
larp-manager-server, shallowly embedded from
`src/larp_manager_server/database.py` and `src/larp_manager_server/models/base.py`.

External effects (the database driver, the connection pool, the clock) are
modelled by explicit outcome parameters; all manager state and all pure
computation is translated directly from the Python source.  Because
`initialize` is not a usable identifier here, the Python methods
`initialize` / `_ensure_initialized` / `is_initialized` and the field
`_initialized` are embedded under the names `initDb` / `_ensure_inited` /
`is_inited` / `inited`; everything else keeps its source name.
-/

/-! ## Table-name derivation (`Base.__tablename__` in models/base.py) -/

/-- One pass of the loop body of `Base.__tablename__`:
`for i, char in enumerate(name): if char.isupper() and i > 0:
result.append('_'); result.append(char.lower())`, carried out over the
character list with `i` the running index. -/
def tablenameChars : Nat → List Char → List Char
  | _, [] => []
  | i, c :: rest =>
    (if c.isUpper ∧ 0 < i then ['_', c.toLower] else [c.toLower]) ++
      tablenameChars (i + 1) rest

/-- `Base.__tablename__`: convert a CamelCase class name to snake_case. -/
def tablename (name : String) : String :=
  String.mk (tablenameChars 0 name.toList)

/-- The table-name algorithm as the specification words it: walk the
enumerated characters; before every uppercase character that is not the
first character emit a separator; lowercase every emitted character. -/
def tablenameSpec (name : String) : String :=
  String.mk
    ((name.toList.enum.map (fun p =>
      if p.2.isUpper ∧ 0 < p.1 then ['_', p.2.toLower] else [p.2.toLower])).flatten)

/-! ## The database manager (`DatabaseManager` in database.py)

The engine and the session factory are opaque external handles; the claims
only observe whether they are present, so both are embedded as `Unit`.
Note that `create_async_engine` does not touch the network (the pool
connects lazily), so engine creation is a total function of the settings
and `initialize` is deterministic. -/

abbrev Engine := Unit
abbrev SessionFactory := Unit

/-- The mutable state of a `DatabaseManager`: the nullable `engine`
handle, the nullable `session_factory` handle and the `_initialized`
flag (here `inited`).  The settings object is configuration data that no
claim observes and is left out. -/
structure DatabaseManager where
  engine : Option Engine
  session_factory : Option SessionFactory
  inited : Bool
deriving DecidableEq, Repr

/-- `DatabaseManager.__init__`: a fresh manager has both handles null and
the flag false. -/
def DatabaseManager.new : DatabaseManager :=
  { engine := none, session_factory := none, inited := false }

/-- `DatabaseManager._create_engine`: builds the pooled engine from the
settings; an opaque handle here. -/
def DatabaseManager._create_engine (_ : DatabaseManager) : Engine := ()

/-- `DatabaseManager._create_session_factory`: raises `RuntimeError` when
`self.engine is None`, otherwise returns a factory bound to the engine. -/
def DatabaseManager._create_session_factory (m : DatabaseManager) :
    Except String SessionFactory :=
  match m.engine with
  | none => .error "Engine not initialized"
  | some _ => .ok ()

/-- `DatabaseManager.initialize` (named `initDb` here): if already
marked, log and return unchanged; otherwise set `self.engine`, then
derive the session factory from it, then set the flag. -/
def DatabaseManager.initDb (m : DatabaseManager) : Except String DatabaseManager :=
  if m.inited then .ok m
  else
    let m1 := { m with engine := some (m._create_engine) }
    match m1._create_session_factory with
    | .error e => .error e
    | .ok f => .ok { m1 with session_factory := some f, inited := true }

/-- `DatabaseManager.close`: if not marked, log and return unchanged;
otherwise dispose the engine (an external effect), clear both handles and
reset the flag. -/
def DatabaseManager.close (m : DatabaseManager) : DatabaseManager :=
  if !m.inited then m
  else { m with engine := none, session_factory := none, inited := false }

/-- `DatabaseManager.is_initialized` (named `is_inited` here). -/
def DatabaseManager.is_inited (m : DatabaseManager) : Bool :=
  m.inited

/-- `DatabaseManager._ensure_initialized` (named `_ensure_inited` here):
raises `RuntimeError` when the flag is false. -/
def DatabaseManager._ensure_inited (m : DatabaseManager) : Except String Unit :=
  if !m.inited then .error "Database not initialized. Call initialize() first."
  else .ok ()

/-! ## Reachable-state invariant (claim C7) -/

/-- A lifecycle call: `initialize()` or `close()`. -/
inductive LifecycleOp
  | initOp
  | closeOp
deriving DecidableEq, Repr

/-- Run one lifecycle call.  `initialize` never raises (proved below as
part of claim C3), so the error branch is dead and returns the state
unchanged. -/
def DatabaseManager.applyLifecycle (m : DatabaseManager) : LifecycleOp → DatabaseManager
  | .initOp =>
    match m.initDb with
    | .ok m' => m'
    | .error _ => m
  | .closeOp => m.close

/-- Run a sequence of lifecycle calls from a state. -/
def DatabaseManager.runLifecycle (m : DatabaseManager) : List LifecycleOp → DatabaseManager
  | [] => m
  | op :: ops => (m.applyLifecycle op).runLifecycle ops

/-- The handle invariant of the specification: the session factory is
non-null iff the flag is set and the engine is non-null. -/
def handleInvariant (m : DatabaseManager) : Prop :=
  m.session_factory.isSome = true ↔ (m.inited = true ∧ m.engine.isSome = true)

/-! ## Sessions, health checks and raw SQL

Database round-trips are external effects.  Each operation that performs
them takes an explicit outcome parameter describing what the backing
store does on this call: the body a caller runs on a yielded session, the
result of the health probe, or the rows / exception a statement produces. -/

/-- A value as it crosses the driver boundary (cells of fetched rows). -/
inductive PyValue
  | none
  | str (s : String)
  | int (n : Int)
  | datetime (iso : String)
  | uuid (canonical : String)
deriving DecidableEq, Repr

/-- The rows `result.fetchall()` returns. -/
abbrev Rows := List (List PyValue)

/-- What a caller's body does with the session `get_session` yields:
finishes normally or raises an exception with this message. -/
inductive BodyOutcome
  | normal
  | raises (msg : String)
deriving DecidableEq, Repr

/-- Observable session events inside one `get_session` invocation. -/
inductive SessionEvent
  | acquire
  | rollback
  | closeSession
deriving DecidableEq, Repr

/-- One `get_session` run: the ordered session events and the exception
propagated to the caller, if any. -/
structure SessionRun where
  events : List SessionEvent
  raised : Option String
deriving DecidableEq, Repr

/-- The `try: yield session / except: rollback; raise / finally: close`
block of `get_session`, as a trace: on a body exception the handler rolls
back and re-raises, and the `finally` clause closes the session on both
paths before the exception leaves the block.  (The surrounding
`async with` context exit closes the already-closed session again, a
no-op not traced separately.) -/
def tryYieldBlock (body : BodyOutcome) : List SessionEvent × Option String :=
  let handled :=
    match body with
    | .normal => (([] : List SessionEvent), (none : Option String))
    | .raises msg => ([SessionEvent.rollback], some msg)
  (handled.1 ++ [SessionEvent.closeSession], handled.2)

/-- `DatabaseManager.get_session`: ensure the manager is marked, check
the factory, acquire one session from the factory and run the caller's
body under the cleanup block. -/
def DatabaseManager.get_session (m : DatabaseManager) (body : BodyOutcome) :
    Except String SessionRun :=
  match m._ensure_inited with
  | .error e => .error e
  | .ok _ =>
    match m.session_factory with
    | none => .error "Session factory not initialized"
    | some _ =>
      let r := tryYieldBlock body
      .ok { events := SessionEvent.acquire :: r.1, raised := r.2 }

/-- The five pool statistics `health_check` reads. -/
structure PoolStats where
  pool_size : Int
  checked_in : Int
  checked_out : Int
  overflow : Int
  invalid : Int
deriving DecidableEq, Repr

/-- What the health probe does: either every step succeeds — the test
query scalar, the schema-existence scalar and the pool statistics are
these — or some step raises with this message. -/
inductive ProbeOutcome
  | ok (testValue : Option Int) (schemaRow : Option String) (stats : PoolStats)
  | raises (msg : String)
deriving DecidableEq, Repr

/-- The dict `health_check` returns: either
`{"status": "unhealthy", "error": e, "details": None}` or
`{"status": "healthy", "test_query": b, "schema_exists": b, "pool_stats": s,
"error": None}`. -/
inductive HealthResult
  | unhealthy (error : String)
  | healthy (test_query : Bool) (schema_exists : Bool) (pool_stats : PoolStats)
deriving DecidableEq, Repr

/-- The `"status"` entry of a health result. -/
def HealthResult.status : HealthResult → String
  | .unhealthy _ => "unhealthy"
  | .healthy _ _ _ => "healthy"

/-- `DatabaseManager.health_check`: if the flag is unset or the engine is
null, report unhealthy without touching the store; otherwise run the
probe, turning a success into a healthy report (`test_query` is whether
the scalar equals 1, `schema_exists` whether the schema row came back)
and any raised exception into an unhealthy report with the captured
message. -/
def DatabaseManager.health_check (m : DatabaseManager) (probe : ProbeOutcome) :
    HealthResult :=
  if !m.inited || m.engine.isNone then
    .unhealthy "Database not initialized"
  else
    match probe with
    | .ok testValue schemaRow stats =>
      .healthy (testValue == some 1) schemaRow.isSome stats
    | .raises msg => .unhealthy msg

/-- What the schema-bootstrap round-trip does. -/
inductive SchemaOutcome
  | ok
  | raises (msg : String)
deriving DecidableEq, Repr

/-- `DatabaseManager.create_schema`: ensure marked, check the engine,
then run the two DDL statements; a failure is logged and re-raised. -/
def DatabaseManager.create_schema (m : DatabaseManager) (outcome : SchemaOutcome) :
    Except String Unit :=
  match m._ensure_inited with
  | .error e => .error e
  | .ok _ =>
    match m.engine with
    | none => .error "Engine not initialized"
    | some _ =>
      match outcome with
      | .ok => .ok ()
      | .raises msg => .error msg

/-- `DatabaseManager.get_engine`: ensure marked, check and return the
engine handle. -/
def DatabaseManager.get_engine (m : DatabaseManager) : Except String Engine :=
  match m._ensure_inited with
  | .error e => .error e
  | .ok _ =>
    match m.engine with
    | none => .error "Engine not initialized"
    | some e => .ok e

/-- The dict `execute_raw_sql` returns: `{"success": True, "result": rows}`
or `{"success": False, "error": message}`. -/
inductive RawSqlResult
  | success (result : Rows)
  | failure (error : String)
deriving DecidableEq, Repr

/-- `DatabaseManager.execute_raw_sql`: ensure marked, check the engine,
execute the statement in its own transaction (`db` is the backing
store's behaviour: the fetched rows, or the exception it raises) and
convert either outcome into the structured result dict. -/
def DatabaseManager.execute_raw_sql (m : DatabaseManager)
    (db : String → Except String Rows) (sql : String) : Except String RawSqlResult :=
  match m._ensure_inited with
  | .error e => .error e
  | .ok _ =>
    match m.engine with
    | none => .error "Engine not initialized"
    | some _ =>
      match db sql with
      | .ok rows => .ok (.success rows)
      | .error e => .ok (.failure e)

/-- A manager in the state a successful `initialize` produces. -/
def mgrUp : DatabaseManager :=
  { engine := some (), session_factory := some (), inited := true }

/-- A backing store as the specification describes the database:
`SELECT 1` fetches the single row `[1]`; a malformed statement raises
with a non-empty driver message. -/
def sampleDb : String → Except String Rows := fun sql =>
  if sql = "SELECT 1" then .ok [[PyValue.int 1]]
  else .error "syntax error at or near the statement"

/-! ## Entity base conventions (`BaseModel` in models/base.py)

An entity instance is its declared column names (in declaration order,
`self.__table__.columns`) together with its attribute dictionary
(`getattr` / `setattr` / `hasattr` over string names).  A Python datetime
is represented by its `isoformat()` rendering and a UUID by its
canonical string, which is all `to_dict` observes of them. -/

/-- Python attribute lookup over the attribute dictionary. -/
def lookupAttr : List (String × PyValue) → String → Option PyValue
  | [], _ => none
  | (k, v) :: rest, a => if a = k then some v else lookupAttr rest a

/-- Python `setattr`: rebind an existing attribute in place, or append a
new one (dictionaries preserve insertion order). -/
def setattrList : List (String × PyValue) → String → PyValue → List (String × PyValue)
  | [], k, v => [(k, v)]
  | (k1, v1) :: rest, k, v =>
    if k1 = k then (k1, v) :: rest else (k1, v1) :: setattrList rest k v

/-- An entity instance. -/
structure Entity where
  columns : List String
  attrs : List (String × PyValue)
deriving DecidableEq, Repr

/-- `getattr(self, name)` (as an option; columns of a mapped instance
always have an attribute). -/
def Entity.getattr? (e : Entity) (k : String) : Option PyValue :=
  lookupAttr e.attrs k

/-- `hasattr(self, name)`. -/
def Entity.hasattr (e : Entity) (k : String) : Bool :=
  (e.getattr? k).isSome

/-- `setattr(self, name, value)`. -/
def Entity.setattr (e : Entity) (k : String) (v : PyValue) : Entity :=
  { e with attrs := setattrList e.attrs k v }

/-- Python `x or d` applied to an optional set argument: `None` and the
empty set are both falsy and select the default. -/
def orDefault (x : Option (List String)) (d : List String) : List String :=
  match x with
  | none => d
  | some l => if l.isEmpty then d else l

/-- The value conversion in the `to_dict` loop: a datetime becomes its
`isoformat()` string, a UUID its `str()`, and anything else passes
through. -/
def serialize : PyValue → PyValue
  | .datetime iso => .str iso
  | .uuid s => .str s
  | v => v

/-- `BaseModel.to_dict`: `exclude = exclude or set()`, then walk the
declared columns in order, skip excluded names, convert each remaining
value and insert it keyed by column name.  (Column names of a mapped
table are distinct, so inserting into the result dictionary in order is
this filter-and-map.) -/
def Entity.to_dict (e : Entity) (exclude : Option (List String)) :
    List (String × PyValue) :=
  let ex := orDefault exclude []
  (e.columns.filter (fun c => !ex.contains c)).map
    (fun c => (c, serialize ((e.getattr? c).getD PyValue.none)))

/-- The body of the `update_from_dict` loop for one `(key, value)` item:
`if key not in exclude and hasattr(self, key): setattr(self, key, value)`. -/
def updStep (ex : List String) (acc : Entity) (kv : String × PyValue) : Entity :=
  if !ex.contains kv.1 && acc.hasattr kv.1 then acc.setattr kv.1 kv.2 else acc

/-- `BaseModel.update_from_dict`:
`exclude = exclude or {'id', 'created_at', 'updated_at'}`, then run the
loop body over the items of `data`. -/
def Entity.update_from_dict (e : Entity) (data : List (String × PyValue))
    (exclude : Option (List String)) : Entity :=
  let ex := orDefault exclude ["id", "created_at", "updated_at"]
  data.foldl (updStep ex) e

/-- A concrete entity: the three base columns and a `name` column, as on
a `NamedModel` instance. -/
def sampleEntity : Entity :=
  { columns := ["id", "created_at", "updated_at", "name"],
    attrs := [("id", .uuid "123e4567-e89b-12d3-a456-426614174000"),
              ("created_at", .datetime "2026-01-01T00:00:00+00:00"),
              ("updated_at", .datetime "2026-01-02T00:00:00+00:00"),
              ("name", .str "old name")] }

/-! ## Theorems -/

theorem tablenameChars_eq_enumFrom (l : List Char) :
    ∀ i, tablenameChars i l =
      ((l.enumFrom i).map (fun p =>
        if p.2.isUpper ∧ 0 < p.1 then ['_', p.2.toLower] else [p.2.toLower])).flatten := by
  induction l with
  | nil => intro i; rfl
  | cons c rest ih =>
    intro i
    simp [tablenameChars, List.enumFrom, ih (i + 1)]

theorem tablename_eq_spec (name : String) : tablename name = tablenameSpec name := by
  unfold tablename tablenameSpec
  rw [tablenameChars_eq_enumFrom name.toList 0, List.enum]

/-- Claim C8: the derived table name emits a separator before every
non-leading uppercase character and lowercases every emitted character
(the enumerated-walk description of the specification), the function is
total and deterministic (it is a Lean function), and it maps the three
example type names as stated. -/
theorem tablename_correct :
    (∀ name, tablename name = tablenameSpec name) ∧
    tablename "GameSession" = "game_session" ∧
    tablename "Game" = "game" ∧
    tablename "ABTest" = "a_b_test" :=
  ⟨tablename_eq_spec, by decide, by decide, by decide⟩

/-- Claim C2: lifecycle state machine.  A fresh manager is not marked;
from any unmarked manager, `initialize` succeeds and yields the state
with both handles populated and the flag true; from any marked manager,
`close` yields the state with both handles cleared and the flag false;
`initialize` on a marked manager and `close` on an unmarked manager are
raising-free no-ops that leave the state exactly as it was. -/
theorem lifecycle_state_machine (mUn mIn : DatabaseManager)
    (hUn : mUn.is_inited = false) (hIn : mIn.is_inited = true) :
    DatabaseManager.new.is_inited = false ∧
    mUn.initDb =
      .ok { engine := some (), session_factory := some (), inited := true } ∧
    (∀ m', mUn.initDb = .ok m' →
      m'.is_inited = true ∧ m'.engine.isSome = true ∧ m'.session_factory.isSome = true) ∧
    mIn.close = { engine := none, session_factory := none, inited := false } ∧
    (mIn.close).is_inited = false ∧
    mIn.initDb = .ok mIn ∧
    mUn.close = mUn := by
  have hUn' : mUn.inited = false := hUn
  have hIn' : mIn.inited = true := hIn
  refine ⟨rfl, ?_, ?_, ?_, ?_, ?_, ?_⟩
  · simp [DatabaseManager.initDb, hUn', DatabaseManager._create_engine,
      DatabaseManager._create_session_factory]
  · intro m' hm'
    simp [DatabaseManager.initDb, hUn', DatabaseManager._create_engine,
      DatabaseManager._create_session_factory] at hm'
    simp [← hm', DatabaseManager.is_inited]
  · simp [DatabaseManager.close, hIn']
  · simp [DatabaseManager.close, hIn', DatabaseManager.is_inited]
  · simp [DatabaseManager.initDb, hIn']
  · simp [DatabaseManager.close, hUn']

/-- A concrete run of the lifecycle state machine: the fresh manager and
the manager produced by a successful `initialize`. -/
theorem lifecycle_state_machine_witness :
    DatabaseManager.new.is_inited = false ∧
    (DatabaseManager.mk (some ()) (some ()) true).is_inited = true ∧
    DatabaseManager.new.initDb =
      .ok { engine := some (), session_factory := some (), inited := true } ∧
    (DatabaseManager.mk (some ()) (some ()) true).close =
      { engine := none, session_factory := none, inited := false } := by
  have h := lifecycle_state_machine DatabaseManager.new
    (DatabaseManager.mk (some ()) (some ()) true) (by decide) (by decide)
  exact ⟨h.1, by decide, h.2.1, h.2.2.2.1⟩

theorem handleInvariant_applyLifecycle (m : DatabaseManager) (op : LifecycleOp)
    (h : handleInvariant m) : handleInvariant (m.applyLifecycle op) := by
  cases op with
  | initOp =>
    by_cases hi : m.inited
    · simp [DatabaseManager.applyLifecycle, DatabaseManager.initDb, hi, h]
    · simp [DatabaseManager.applyLifecycle, DatabaseManager.initDb, hi,
        DatabaseManager._create_engine, DatabaseManager._create_session_factory,
        handleInvariant]
  | closeOp =>
    by_cases hi : m.inited
    · simp [DatabaseManager.applyLifecycle, DatabaseManager.close, hi, handleInvariant]
    · simpa [DatabaseManager.applyLifecycle, DatabaseManager.close, hi] using h

theorem handleInvariant_runLifecycle (ops : List LifecycleOp) :
    ∀ m : DatabaseManager, handleInvariant m → handleInvariant (m.runLifecycle ops) := by
  induction ops with
  | nil => intro m h; exact h
  | cons op ops ih =>
    intro m h
    exact ih _ (handleInvariant_applyLifecycle m op h)

/-- Claim C7: in every state reachable from a fresh manager by any
sequence of `initialize()` and `close()` calls, the session factory is
non-null iff the flag is true and the engine handle is non-null. -/
theorem manager_handle_invariant (ops : List LifecycleOp) :
    handleInvariant (DatabaseManager.new.runLifecycle ops) :=
  handleInvariant_runLifecycle ops DatabaseManager.new (by simp [handleInvariant, DatabaseManager.new])

/-- Claim C1: `health_check` never raises and always returns a
structured result.  On an unmarked manager it reports unhealthy with the
error `"Database not initialized"`; on a marked manager with an engine,
a probe exception is caught and reported as unhealthy with the captured
message, and a successful probe is reported as healthy carrying the
test-query outcome, the schema-existence flag and the five pool
statistics; on every manager and probe whatsoever the result is one of
the two structured shapes. -/
theorem health_check_structured (mUn m : DatabaseManager) (e : Engine)
    (hUn : mUn.inited = false) (hIn : m.inited = true) (hEng : m.engine = some e) :
    (∀ probe, mUn.health_check probe = .unhealthy "Database not initialized") ∧
    (∀ msg, m.health_check (.raises msg) = .unhealthy msg) ∧
    (∀ tv sr st, m.health_check (.ok tv sr st) = .healthy (tv == some 1) sr.isSome st) ∧
    (∀ (mAny : DatabaseManager) (probe : ProbeOutcome),
      (mAny.health_check probe).status = "healthy" ∨
      (mAny.health_check probe).status = "unhealthy") := by
  refine ⟨?_, ?_, ?_, ?_⟩
  · intro probe; simp [DatabaseManager.health_check, hUn]
  · intro msg; simp [DatabaseManager.health_check, hIn, hEng]
  · intro tv sr st; simp [DatabaseManager.health_check, hIn, hEng]
  · intro mAny probe
    unfold DatabaseManager.health_check
    by_cases hc : (!mAny.inited || mAny.engine.isNone) = true
    · simp [hc, HealthResult.status]
    · cases probe <;> simp [hc, HealthResult.status]

/-- A concrete run of `health_check` on the fresh manager and on a
marked manager, for a successful probe and a failing one. -/
theorem health_check_structured_witness :
    DatabaseManager.new.health_check (ProbeOutcome.raises "timeout") =
      .unhealthy "Database not initialized" ∧
    mgrUp.health_check (ProbeOutcome.raises "connection refused") =
      .unhealthy "connection refused" ∧
    mgrUp.health_check
        (ProbeOutcome.ok (some 1) (some "larp_manager") ⟨5, 5, 0, 0, 0⟩) =
      .healthy true true ⟨5, 5, 0, 0, 0⟩ := by
  have h := health_check_structured DatabaseManager.new mgrUp () rfl rfl rfl
  refine ⟨h.1 (ProbeOutcome.raises "timeout"), h.2.1 "connection refused", ?_⟩
  have h3 := h.2.2.1 (some 1) (some "larp_manager") ⟨5, 5, 0, 0, 0⟩
  simpa using h3

/-- Claim C3: on an unmarked manager, `get_session`, `create_schema`,
`get_engine` and `execute_raw_sql` each raise the not-initialized
`RuntimeError` (they return no value and no structured failure result),
while `initialize` succeeds, `close` is a raising-free no-op and
`health_check` returns a structured unhealthy result instead of
raising. -/
theorem not_inited_fail_fast (m : DatabaseManager) (hUn : m.inited = false) :
    (∀ body, m.get_session body =
      .error "Database not initialized. Call initialize() first.") ∧
    (∀ outcome, m.create_schema outcome =
      .error "Database not initialized. Call initialize() first.") ∧
    (m.get_engine = .error "Database not initialized. Call initialize() first.") ∧
    (∀ db sql, m.execute_raw_sql db sql =
      .error "Database not initialized. Call initialize() first.") ∧
    (∃ m', m.initDb = .ok m') ∧
    (m.close = m) ∧
    (∀ probe, m.health_check probe = .unhealthy "Database not initialized") := by
  refine ⟨?_, ?_, ?_, ?_, ?_, ?_, ?_⟩
  · intro body; simp [DatabaseManager.get_session, DatabaseManager._ensure_inited, hUn]
  · intro outcome; simp [DatabaseManager.create_schema, DatabaseManager._ensure_inited, hUn]
  · simp [DatabaseManager.get_engine, DatabaseManager._ensure_inited, hUn]
  · intro db sql
    simp [DatabaseManager.execute_raw_sql, DatabaseManager._ensure_inited, hUn]
  · exact ⟨{ engine := some (), session_factory := some (), inited := true },
      by simp [DatabaseManager.initDb, hUn, DatabaseManager._create_engine,
        DatabaseManager._create_session_factory]⟩
  · simp [DatabaseManager.close, hUn]
  · intro probe; simp [DatabaseManager.health_check, hUn]

/-- A concrete fail-fast run on the fresh manager. -/
theorem not_inited_fail_fast_witness :
    DatabaseManager.new.get_session BodyOutcome.normal =
      .error "Database not initialized. Call initialize() first." ∧
    DatabaseManager.new.get_engine =
      .error "Database not initialized. Call initialize() first." ∧
    DatabaseManager.new.close = DatabaseManager.new := by
  have h := not_inited_fail_fast DatabaseManager.new rfl
  exact ⟨h.1 BodyOutcome.normal, h.2.2.1, h.2.2.2.2.2.1⟩

/-- Claim C4: on a marked manager with a session factory, every
`get_session` invocation yields a run that acquires exactly one session
and closes it on every exit path; when the body raises, the session is
rolled back before it is closed and the same exception is re-raised to
the caller after cleanup; on normal exit the session is closed without
any rollback. -/
theorem get_session_cleanup (m : DatabaseManager) (f : SessionFactory)
    (hIn : m.inited = true) (hF : m.session_factory = some f) :
    (m.get_session .normal =
      .ok { events := [.acquire, .closeSession], raised := none }) ∧
    (∀ msg, m.get_session (.raises msg) =
      .ok { events := [.acquire, .rollback, .closeSession], raised := some msg }) ∧
    (∀ body run, m.get_session body = .ok run →
      SessionEvent.closeSession ∈ run.events ∧
      run.events.count SessionEvent.acquire = 1) ∧
    (∀ msg run, m.get_session (.raises msg) = .ok run →
      run.raised = some msg ∧
      run.events.indexOf SessionEvent.rollback <
        run.events.indexOf SessionEvent.closeSession) ∧
    (∀ run, m.get_session .normal = .ok run →
      SessionEvent.rollback ∉ run.events ∧ run.raised = none) := by
  have hnorm : m.get_session .normal =
      .ok { events := [.acquire, .closeSession], raised := none } := by
    simp [DatabaseManager.get_session, DatabaseManager._ensure_inited, hIn, hF,
      tryYieldBlock]
  have hraise : ∀ msg, m.get_session (.raises msg) =
      .ok { events := [.acquire, .rollback, .closeSession], raised := some msg } := by
    intro msg
    simp [DatabaseManager.get_session, DatabaseManager._ensure_inited, hIn, hF,
      tryYieldBlock]
  refine ⟨hnorm, hraise, ?_, ?_, ?_⟩
  · intro body run hrun
    cases body with
    | normal =>
      rw [hnorm] at hrun
      cases hrun
      exact ⟨by decide, by decide⟩
    | raises msg =>
      rw [hraise msg] at hrun
      cases hrun
      refine ⟨?_, ?_⟩
      · show SessionEvent.closeSession ∈
          [SessionEvent.acquire, SessionEvent.rollback, SessionEvent.closeSession]
        decide
      · show List.count SessionEvent.acquire
          [SessionEvent.acquire, SessionEvent.rollback, SessionEvent.closeSession] = 1
        decide
  · intro msg run hrun
    rw [hraise msg] at hrun
    cases hrun
    refine ⟨rfl, ?_⟩
    show List.indexOf SessionEvent.rollback
        [SessionEvent.acquire, SessionEvent.rollback, SessionEvent.closeSession] <
      List.indexOf SessionEvent.closeSession
        [SessionEvent.acquire, SessionEvent.rollback, SessionEvent.closeSession]
    decide
  · intro run hrun
    rw [hnorm] at hrun
    cases hrun
    exact ⟨by decide, rfl⟩

/-- A concrete pair of `get_session` runs on a marked manager: a normal
body and a body that raises. -/
theorem get_session_cleanup_witness :
    mgrUp.get_session BodyOutcome.normal =
      .ok { events := [.acquire, .closeSession], raised := none } ∧
    mgrUp.get_session (BodyOutcome.raises "integrity error") =
      .ok { events := [.acquire, .rollback, .closeSession],
            raised := some "integrity error" } := by
  have h := get_session_cleanup mgrUp () rfl rfl
  exact ⟨h.1, h.2.1 "integrity error"⟩

/-- Claim C5: on a marked manager with an engine, `execute_raw_sql`
never raises: whatever the backing store does with the statement, the
call returns a structured result; fetched rows become
`{success: true, result: rows}` and a raised exception becomes
`{success: false, error: message}` with the captured message, which is
non-empty whenever the driver's message is.  In particular, with a
backing store on which `SELECT 1` fetches the single row `[1]`, the call
on `"SELECT 1"` returns that success result. -/
theorem execute_raw_sql_structured (m : DatabaseManager) (e : Engine)
    (db : String → Except String Rows)
    (hIn : m.inited = true) (hEng : m.engine = some e) :
    (∀ sql, ∃ r, m.execute_raw_sql db sql = .ok r) ∧
    (∀ sql rows, db sql = .ok rows →
      m.execute_raw_sql db sql = .ok (.success rows)) ∧
    (∀ sql msg, db sql = .error msg →
      m.execute_raw_sql db sql = .ok (.failure msg) ∧
      (msg ≠ "" → ∃ err, m.execute_raw_sql db sql = .ok (.failure err) ∧ err ≠ "")) ∧
    (db "SELECT 1" = .ok [[PyValue.int 1]] →
      m.execute_raw_sql db "SELECT 1" = .ok (.success [[PyValue.int 1]])) := by
  have hok : ∀ sql rows, db sql = .ok rows →
      m.execute_raw_sql db sql = .ok (.success rows) := by
    intro sql rows hdb
    simp [DatabaseManager.execute_raw_sql, DatabaseManager._ensure_inited, hIn, hEng, hdb]
  have herr : ∀ sql msg, db sql = .error msg →
      m.execute_raw_sql db sql = .ok (.failure msg) := by
    intro sql msg hdb
    simp [DatabaseManager.execute_raw_sql, DatabaseManager._ensure_inited, hIn, hEng, hdb]
  refine ⟨?_, hok, ?_, ?_⟩
  · intro sql
    cases hdb : db sql with
    | ok rows => exact ⟨.success rows, hok sql rows hdb⟩
    | error msg => exact ⟨.failure msg, herr sql msg hdb⟩
  · intro sql msg hdb
    exact ⟨herr sql msg hdb, fun hne => ⟨msg, herr sql msg hdb, hne⟩⟩
  · intro hdb
    exact hok "SELECT 1" [[PyValue.int 1]] hdb

/-- A concrete pair of `execute_raw_sql` calls on a marked manager:
`SELECT 1` and a malformed statement. -/
theorem execute_raw_sql_structured_witness :
    mgrUp.execute_raw_sql sampleDb "SELECT 1" =
      .ok (.success [[PyValue.int 1]]) ∧
    mgrUp.execute_raw_sql sampleDb "SELEC 1" =
      .ok (.failure "syntax error at or near the statement") ∧
    "syntax error at or near the statement" ≠ "" := by
  have h := execute_raw_sql_structured mgrUp () sampleDb rfl rfl
  refine ⟨h.2.2.2 rfl, ?_, by decide⟩
  exact (h.2.2.1 "SELEC 1" "syntax error at or near the statement" rfl).1

theorem lookupAttr_setattrList_self (l : List (String × PyValue)) (k : String)
    (v : PyValue) : lookupAttr (setattrList l k v) k = some v := by
  induction l with
  | nil => simp [setattrList, lookupAttr]
  | cons p rest ih =>
    by_cases h : p.1 = k
    · simp [setattrList, h, lookupAttr]
    · have h' : ¬k = p.1 := fun hh => h hh.symm
      simp [setattrList, h, lookupAttr, h', ih]

theorem lookupAttr_setattrList_ne (l : List (String × PyValue)) (k a : String)
    (v : PyValue) (h : a ≠ k) :
    lookupAttr (setattrList l k v) a = lookupAttr l a := by
  induction l with
  | nil => simp [setattrList, lookupAttr, h]
  | cons p rest ih =>
    by_cases h1 : p.1 = k
    · subst h1
      simp [setattrList, lookupAttr, h]
    · by_cases h2 : a = p.1
      · simp [setattrList, h1, lookupAttr, h2]
      · simp [setattrList, h1, lookupAttr, h2, ih]

theorem lookupAttr_eq_none_of_not_mem (l : List (String × PyValue)) (a : String)
    (h : a ∉ l.map Prod.fst) : lookupAttr l a = none := by
  induction l with
  | nil => rfl
  | cons p rest ih =>
    simp only [List.map_cons, List.mem_cons] at h
    push_neg at h
    simp [lookupAttr, h.1, ih h.2]

theorem hasattr_updStep (ex : List String) (e : Entity) (kv : String × PyValue)
    (a : String) : (updStep ex e kv).hasattr a = e.hasattr a := by
  unfold updStep
  by_cases hc : (!ex.contains kv.1 && e.hasattr kv.1) = true
  · rw [if_pos hc]
    simp only [Entity.hasattr, Entity.getattr?, Entity.setattr]
    by_cases ha : a = kv.1
    · subst ha
      rw [lookupAttr_setattrList_self]
      have hk : (lookupAttr e.attrs kv.1).isSome = true := ((Bool.and_eq_true _ _).mp hc).2
      simp [hk]
    · rw [lookupAttr_setattrList_ne _ _ _ _ ha]
  · rw [if_neg hc]

theorem getattr_updStep_ne (ex : List String) (e : Entity) (kv : String × PyValue)
    (a : String) (h : a ≠ kv.1) : (updStep ex e kv).getattr? a = e.getattr? a := by
  unfold updStep
  by_cases hc : (!ex.contains kv.1 && e.hasattr kv.1) = true
  · rw [if_pos hc]
    simp only [Entity.getattr?, Entity.setattr]
    exact lookupAttr_setattrList_ne _ _ _ _ h
  · rw [if_neg hc]

theorem foldl_updStep_hasattr (data : List (String × PyValue)) :
    ∀ (e : Entity) (ex : List String) (a : String),
      (data.foldl (updStep ex) e).hasattr a = e.hasattr a := by
  induction data with
  | nil => intro e ex a; rfl
  | cons kv rest ih =>
    intro e ex a
    show (rest.foldl (updStep ex) (updStep ex e kv)).hasattr a = e.hasattr a
    rw [ih (updStep ex e kv) ex a, hasattr_updStep]

theorem foldl_updStep_getattr (data : List (String × PyValue)) :
    ∀ (e : Entity) (ex : List String) (a : String),
      (data.map Prod.fst).Nodup →
      (data.foldl (updStep ex) e).getattr? a =
        match lookupAttr data a with
        | some v =>
          if (!ex.contains a && e.hasattr a) = true then some v else e.getattr? a
        | none => e.getattr? a := by
  induction data with
  | nil => intro e ex a _; rfl
  | cons kv rest ih =>
    intro e ex a hnd
    obtain ⟨k, v⟩ := kv
    rw [List.map_cons, List.nodup_cons] at hnd
    show (rest.foldl (updStep ex) (updStep ex e (k, v))).getattr? a = _
    rw [ih (updStep ex e (k, v)) ex a hnd.2]
    by_cases ha : a = k
    · subst ha
      have hnone : lookupAttr rest a = none :=
        lookupAttr_eq_none_of_not_mem rest a hnd.1
      have hcons : lookupAttr ((a, v) :: rest) a = some v := by
        simp [lookupAttr]
      rw [hnone, hcons]
      dsimp only
      by_cases hc : (!ex.contains a && e.hasattr a) = true
      · rw [if_pos hc]
        unfold updStep
        rw [if_pos hc]
        simp only [Entity.getattr?, Entity.setattr]
        exact lookupAttr_setattrList_self e.attrs a v
      · rw [if_neg hc]
        unfold updStep
        rw [if_neg hc]
    · have hcons : lookupAttr ((k, v) :: rest) a = lookupAttr rest a := by
        simp [lookupAttr, ha]
      rw [hcons]
      cases hl : lookupAttr rest a with
      | none =>
        simp only
        exact getattr_updStep_ne ex e (k, v) a ha
      | some w =>
        simp only [hasattr_updStep, getattr_updStep_ne ex e (k, v) a ha]

/-- Counterexample to claim C6 as stated: with the caller-supplied
exclusion set empty, the `id` key of the data is in the data, not in the
exclusion set, and names an existing attribute, so the claim says `id`
is set; the code treats the empty set as falsy, falls back to the
default exclusions and leaves `id` unchanged. -/
theorem update_from_dict_empty_exclude_cex :
    sampleEntity.hasattr "id" = true ∧
    (sampleEntity.update_from_dict [("id", PyValue.str "new-id")] (some [])).getattr? "id" =
      sampleEntity.getattr? "id" ∧
    (sampleEntity.update_from_dict [("id", PyValue.str "new-id")] (some [])).getattr? "id" ≠
      some (PyValue.str "new-id") := by
  refine ⟨rfl, rfl, ?_⟩
  decide

/-- Claim C6 as amended: for every non-empty caller-supplied exclusion
set `E`, `update_from_dict data E` uses `E` in place of the default
exclusions — at every attribute the result holds the data value exactly
when the key occurs in the data, is not in `E` and names an existing
attribute, and is unchanged otherwise; a caller-supplied empty set is
treated like an absent argument, so the default exclusions apply. -/
theorem update_from_dict_exclusion_override (e : Entity)
    (data : List (String × PyValue)) (E : List String) (a : String)
    (hE : E ≠ []) (hnd : (data.map Prod.fst).Nodup) :
    ((e.update_from_dict data (some E)).getattr? a =
      match lookupAttr data a with
      | some v =>
        if (!E.contains a && e.hasattr a) = true then some v else e.getattr? a
      | none => e.getattr? a) ∧
    e.update_from_dict data (some []) = e.update_from_dict data none := by
  constructor
  · have hres : orDefault (some E) ["id", "created_at", "updated_at"] = E := by
      cases E with
      | nil => exact absurd rfl hE
      | cons h t => rfl
    show (data.foldl
      (updStep (orDefault (some E) ["id", "created_at", "updated_at"])) e).getattr? a = _
    rw [hres]
    exact foldl_updStep_getattr data e E a hnd
  · rfl

/-- A concrete overriding update: excluding only `name` lets the usually
protected `created_at` be rewritten while `name` stays. -/
theorem update_from_dict_exclusion_override_witness :
    (sampleEntity.update_from_dict
        [("created_at", PyValue.datetime "2030-01-01T00:00:00+00:00"),
         ("name", PyValue.str "ignored")]
        (some ["name"])).getattr? "created_at" =
      some (PyValue.datetime "2030-01-01T00:00:00+00:00") ∧
    (sampleEntity.update_from_dict
        [("created_at", PyValue.datetime "2030-01-01T00:00:00+00:00"),
         ("name", PyValue.str "ignored")]
        (some ["name"])).getattr? "name" = some (PyValue.str "old name") := by
  have h1 := update_from_dict_exclusion_override sampleEntity
    [("created_at", PyValue.datetime "2030-01-01T00:00:00+00:00"),
     ("name", PyValue.str "ignored")] ["name"] "created_at"
    (by decide) (by decide)
  have h2 := update_from_dict_exclusion_override sampleEntity
    [("created_at", PyValue.datetime "2030-01-01T00:00:00+00:00"),
     ("name", PyValue.str "ignored")] ["name"] "name"
    (by decide) (by decide)
  exact ⟨h1.1, h2.1⟩

/-- Claim C10: updating from a mapping with the default exclusions
leaves `id`, `created_at` and `updated_at` unchanged, sets every other
key of the data that names an existing attribute to the given value, and
silently ignores keys naming no attribute (the entity's attributes are
untouched and no attribute is created; the operation is a total
function, so no error is raised). -/
theorem update_from_dict_default_frame (e : Entity)
    (data : List (String × PyValue)) (hnd : (data.map Prod.fst).Nodup) :
    ((e.update_from_dict data none).getattr? "id" = e.getattr? "id") ∧
    ((e.update_from_dict data none).getattr? "created_at" = e.getattr? "created_at") ∧
    ((e.update_from_dict data none).getattr? "updated_at" = e.getattr? "updated_at") ∧
    (∀ a v, lookupAttr data a = some v →
      a ≠ "id" → a ≠ "created_at" → a ≠ "updated_at" → e.hasattr a = true →
      (e.update_from_dict data none).getattr? a = some v) ∧
    (∀ a, e.hasattr a = false →
      (e.update_from_dict data none).hasattr a = false ∧
      (e.update_from_dict data none).getattr? a = e.getattr? a) := by
  have hmain : ∀ a, (e.update_from_dict data none).getattr? a =
      match lookupAttr data a with
      | some v =>
        if (!(["id", "created_at", "updated_at"] : List String).contains a
            && e.hasattr a) = true then some v else e.getattr? a
      | none => e.getattr? a :=
    fun a => foldl_updStep_getattr data e ["id", "created_at", "updated_at"] a hnd
  have hexcl : ∀ a, (["id", "created_at", "updated_at"] : List String).contains a = true →
      (e.update_from_dict data none).getattr? a = e.getattr? a := by
    intro a hca
    rw [hmain a]
    cases hl : lookupAttr data a with
    | none => rfl
    | some v =>
      dsimp only
      rw [hca]
      simp
  refine ⟨hexcl "id" rfl, hexcl "created_at" rfl, hexcl "updated_at" rfl, ?_, ?_⟩
  · intro a v hl ha1 ha2 ha3 hha
    rw [hmain a, hl]
    dsimp only
    have hca : (["id", "created_at", "updated_at"] : List String).contains a = false := by
      simp [ha1, ha2, ha3]
    rw [hca, hha]
    simp
  · intro a hna
    constructor
    · show (data.foldl (updStep ["id", "created_at", "updated_at"]) e).hasattr a = false
      rw [foldl_updStep_hasattr data e ["id", "created_at", "updated_at"] a]
      exact hna
    · rw [hmain a]
      cases hl : lookupAttr data a with
      | none => rfl
      | some v => simp [hna]

/-- A concrete default-exclusion update: `id` keeps its value, `name` is
set, and an unknown key is ignored. -/
theorem update_from_dict_default_frame_witness :
    (sampleEntity.update_from_dict
        [("id", PyValue.str "X"), ("name", PyValue.str "Y"),
         ("no_such_field", PyValue.int 7)] none).getattr? "id" =
      sampleEntity.getattr? "id" ∧
    (sampleEntity.update_from_dict
        [("id", PyValue.str "X"), ("name", PyValue.str "Y"),
         ("no_such_field", PyValue.int 7)] none).getattr? "name" =
      some (PyValue.str "Y") ∧
    (sampleEntity.update_from_dict
        [("id", PyValue.str "X"), ("name", PyValue.str "Y"),
         ("no_such_field", PyValue.int 7)] none).hasattr "no_such_field" = false := by
  have h := update_from_dict_default_frame sampleEntity
    [("id", PyValue.str "X"), ("name", PyValue.str "Y"),
     ("no_such_field", PyValue.int 7)] (by decide)
  refine ⟨h.1, ?_, (h.2.2.2.2 "no_such_field" rfl).1⟩
  exact h.2.2.2.1 "name" (PyValue.str "Y") rfl
    (by decide) (by decide) (by decide) rfl

theorem to_dict_some_eq (e : Entity) (ex : List String) :
    e.to_dict (some ex) =
      (e.columns.filter (fun c => !ex.contains c)).map
        (fun c => (c, serialize ((e.getattr? c).getD PyValue.none))) := by
  cases ex with
  | nil => rfl
  | cons h t => rfl

theorem serialize_not_native (v : PyValue) :
    (∀ s, serialize v ≠ PyValue.datetime s) ∧ (∀ s, serialize v ≠ PyValue.uuid s) := by
  cases v <;> simp [serialize]

/-- Claim C9: for every entity and exclusion set, `to_dict` returns a
mapping keyed by field name whose keys are exactly the declared columns
not in the exclusion set (in declaration order); no excluded key is ever
present; no value in the output is a native datetime or UUID; a column
holding a datetime appears as its ISO-8601 string and a column holding a
UUID as its canonical string. -/
theorem to_dict_conversion (e : Entity) (ex : List String) :
    ((e.to_dict (some ex)).map Prod.fst = e.columns.filter (fun c => !ex.contains c)) ∧
    (∀ c, c ∈ ex → ∀ v, (c, v) ∉ e.to_dict (some ex)) ∧
    (∀ p ∈ e.to_dict (some ex),
      (∀ s, p.2 ≠ PyValue.datetime s) ∧ (∀ s, p.2 ≠ PyValue.uuid s)) ∧
    (∀ c iso, c ∈ e.columns → ex.contains c = false →
      e.getattr? c = some (PyValue.datetime iso) →
      (c, PyValue.str iso) ∈ e.to_dict (some ex)) ∧
    (∀ c s, c ∈ e.columns → ex.contains c = false →
      e.getattr? c = some (PyValue.uuid s) →
      (c, PyValue.str s) ∈ e.to_dict (some ex)) := by
  rw [to_dict_some_eq]
  refine ⟨?_, ?_, ?_, ?_, ?_⟩
  · rw [List.map_map]
    have hid : (Prod.fst ∘ fun c =>
        (c, serialize ((e.getattr? c).getD PyValue.none))) = id := rfl
    rw [hid, List.map_id]
  · intro c hc v hmem
    rw [List.mem_map] at hmem
    obtain ⟨c', hc', heq⟩ := hmem
    have hfst : c' = c := congrArg Prod.fst heq
    rw [List.mem_filter, hfst] at hc'
    have hcon : ex.contains c = true := List.elem_eq_true_of_mem hc
    rw [hcon] at hc'
    exact absurd hc'.2 (by simp)
  · intro p hmem
    rw [List.mem_map] at hmem
    obtain ⟨c', _, heq⟩ := hmem
    have hsnd : p.2 = serialize ((e.getattr? c').getD PyValue.none) :=
      (congrArg Prod.snd heq).symm
    rw [hsnd]
    exact serialize_not_native _
  · intro c iso hcol hcon hval
    rw [List.mem_map]
    refine ⟨c, ?_, ?_⟩
    · rw [List.mem_filter]
      exact ⟨hcol, by rw [hcon]; rfl⟩
    · rw [hval]
      rfl
  · intro c s hcol hcon hval
    rw [List.mem_map]
    refine ⟨c, ?_, ?_⟩
    · rw [List.mem_filter]
      exact ⟨hcol, by rw [hcon]; rfl⟩
    · rw [hval]
      rfl

/-- A concrete `to_dict` call on a `NamedModel`-like entity excluding
`id`: the excluded key is absent and the timestamp columns come out as
ISO-8601 strings. -/
theorem to_dict_conversion_witness :
    (sampleEntity.to_dict (some ["id"])).map Prod.fst =
      ["created_at", "updated_at", "name"] ∧
    (∀ v, ("id", v) ∉ sampleEntity.to_dict (some ["id"])) ∧
    ("created_at", PyValue.str "2026-01-01T00:00:00+00:00") ∈
      sampleEntity.to_dict (some ["id"]) := by
  have h := to_dict_conversion sampleEntity ["id"]
  refine ⟨?_, ?_, ?_⟩
  · rw [h.1]
    rfl
  · intro v
    exact h.2.1 "id" (by decide) v
  · exact h.2.2.2.1 "created_at" "2026-01-01T00:00:00+00:00"
      (by decide) rfl rfl

/-- A concrete reachable-state run for the handle invariant. -/
theorem manager_handle_invariant_witness :
    handleInvariant
      (DatabaseManager.new.runLifecycle
        [LifecycleOp.initOp, LifecycleOp.closeOp, LifecycleOp.initOp]) :=
  manager_handle_invariant [LifecycleOp.initOp, LifecycleOp.closeOp, LifecycleOp.initOp]

/-- The table-name derivation at a concrete type name. -/
theorem tablename_correct_witness : tablename "GameSession" = "game_session" :=
  tablename_correct.2.1

